import Mathlib

set_option maxRecDepth 10000

/-!
Verification development for the Stepstone job-search service
(session store, result extraction, fetch-client configuration,
detail-page error handling), shallowly embedded from the Python
sources `session_manager.py`, `job_details_models.py`,
`stepstone_server.py` and `job_detail_parser.py`.

Conventions of the embedding:
* Python `datetime.now()` is modelled by an explicit `now : Int`
  parameter (whole seconds; the claims under study are stated at
  second granularity).
* Python dicts that hold sessions are modelled as association
  lists in insertion order, which is the iteration order of a
  Python dict; update-in-place and delete mirror dict semantics.
* Randomness (`uuid.uuid4()`, `random.uniform`) is modelled by
  passing the drawn value as an explicit argument.
* Fallible effects (HTTP requests, exceptions) are modelled with
  `Except`.
-/

namespace Stepstone

/-! ## Python string primitives used by the source -/

/-- Python `sub in s` for strings: contiguous-substring containment. -/
def pyContains (sub s : String) : Bool :=
  decide (sub.toList <:+: s.toList)

/-- Python `s.lower()`, character-wise lowercasing (the inputs of
interest are ASCII). -/
def pyLower (s : String) : String := String.mk (s.toList.map Char.toLower)

/-- Python `s.strip()`: remove leading and trailing whitespace. -/
def pyStrip (s : String) : String :=
  String.mk (((s.toList.dropWhile Char.isWhitespace).reverse.dropWhile
    Char.isWhitespace).reverse)

/-- Worker for `pySplit`: accumulate the current (reversed) token,
emitting it at each whitespace boundary. -/
def pySplitGo : List Char → List Char → List String
  | [], acc => if acc.isEmpty then [] else [String.mk acc.reverse]
  | c :: cs, acc =>
    if c.isWhitespace then
      if acc.isEmpty then pySplitGo cs []
      else String.mk acc.reverse :: pySplitGo cs []
    else pySplitGo cs (c :: acc)

/-- Python `s.split()` with no separator: the maximal runs of
non-whitespace characters, in order (no empty tokens). -/
def pySplit (s : String) : List String := pySplitGo s.toList []

/-- Python `s.startswith(pre)`. -/
def pyStartsWith (pre s : String) : Bool := List.isPrefixOf pre.toList s.toList

/-! ## Job values stored in a session (`session_manager.py` stores
arbitrary entries; `find_job_in_session` guards with `isinstance`) -/

/-- A Python value that may or may not be a string, as stored in a
job dictionary field (`title`/`company` may be `None`, a number, ...). -/
inductive PyVal where
  | str (s : String)
  | notStr (tag : Nat)
deriving DecidableEq, Repr

/-- A Python dictionary entry for a job (string keys, arbitrary values). -/
structure JobDict where
  fields : List (String × PyVal)
deriving DecidableEq, Repr

/-- Python `d.get(k)`: first binding of `k`, if any. -/
def JobDict.get (d : JobDict) (k : String) : Option PyVal :=
  (d.fields.find? (fun p => p.1 = k)).map Prod.snd

/-- An entry of a session's `results` list: either a job dictionary or
some non-dictionary Python value (whose truthiness we record). -/
inductive JobValue where
  | dict (d : JobDict)
  | nonDict (truthy : Bool)
deriving DecidableEq, Repr

/-- Python truthiness of a stored result entry: a dict is truthy iff
non-empty; for non-dict values we carry the flag. -/
def JobValue.isTruthy : JobValue → Bool
  | .dict d => !d.fields.isEmpty
  | .nonDict b => b

/-! ## `SearchSession` (`job_details_models.py`, lines 51–63) -/

/-- `SearchSession` dataclass. `timestamp` is creation time in seconds. -/
structure SearchSession where
  session_id : String
  search_terms : List String
  zip_code : String
  radius : Int
  results : List JobValue
  timestamp : Int
deriving DecidableEq, Repr

/-- `SearchSession.is_expired`: `(datetime.now() - self.timestamp).total_seconds() > timeout_seconds`. -/
def SearchSession.is_expired (s : SearchSession) (now : Int) (timeout_seconds : Int) : Bool :=
  now - s.timestamp > timeout_seconds

/-! ## `SessionManager` (`session_manager.py`) -/

/-- The session manager state: the `sessions` dict (association list in
insertion order) and the configured timeout. -/
structure SessionManager where
  sessions : List (String × SearchSession)
  session_timeout : Int
deriving DecidableEq, Repr

/-- Dict lookup: first binding wins (keys of a Python dict are unique). -/
def dictLookup (l : List (String × SearchSession)) (k : String) : Option SearchSession :=
  (l.find? (fun p => p.1 = k)).map Prod.snd

/-- Dict assignment `d[k] = v`: update in place when the key exists
(Python dicts keep the original insertion position), else append. -/
def dictSet (l : List (String × SearchSession)) (k : String) (v : SearchSession) :
    List (String × SearchSession) :=
  if l.any (fun p => p.1 = k) then
    l.map (fun p => if p.1 = k then (k, v) else p)
  else
    l ++ [(k, v)]

/-- Dict deletion `del d[k]`. -/
def dictDelete (l : List (String × SearchSession)) (k : String) :
    List (String × SearchSession) :=
  l.filter (fun p => p.1 ≠ k)

/-- `SessionManager._cleanup_expired_sessions`: collect the expired
session ids and delete each one. -/
def SessionManager.cleanup_expired_sessions (m : SessionManager) (now : Int) : SessionManager :=
  { m with sessions := m.sessions.filter (fun p => !(p.2.is_expired now m.session_timeout)) }

/-- `SessionManager.create_session` (lines 26–53).  `sid` models the
freshly drawn `str(uuid.uuid4())`; `search_terms = none` models a
`None` argument.  Returns the new session id and the updated manager
(store, then lazily purge expired sessions). -/
def SessionManager.create_session (m : SessionManager) (now : Int) (sid : String)
    (results : List JobValue) (search_terms : Option (List String))
    (zip_code : String) (radius : Int) : String × SessionManager :=
  let session : SearchSession :=
    { session_id := sid
      search_terms := search_terms.getD []
      zip_code := zip_code
      radius := radius
      results := results
      timestamp := now }
  let m1 : SessionManager := { m with sessions := dictSet m.sessions sid session }
  (sid, m1.cleanup_expired_sessions now)

/-- `SessionManager.get_session` (lines 55–73): absent if the id is not
stored; lazily evict and report absent if stored but expired; otherwise
return the session unchanged. -/
def SessionManager.get_session (m : SessionManager) (now : Int) (session_id : String) :
    Option SearchSession × SessionManager :=
  match dictLookup m.sessions session_id with
  | none => (none, m)
  | some session =>
    if session.is_expired now m.session_timeout then
      (none, { m with sessions := dictDelete m.sessions session_id })
    else
      (some session, m)

/-! ### `find_job_in_session` (lines 75–137): three priority stages -/

/-- Stage-(a) predicate: the entry is a dict whose `title` is a string
containing the normalized query as a substring (case-insensitive).
Malformed entries (non-dict, or missing/non-string title) never match. -/
def titleMatch (query_lower : String) : JobValue → Bool
  | .dict d =>
    match d.get "title" with
    | some (.str title) => pyContains query_lower (pyLower title)
    | _ => false
  | .nonDict _ => false

/-- Stage-(b) predicate: the entry is a dict whose `company` is a string
containing the normalized query as a substring (case-insensitive). -/
def companyMatch (query_lower : String) : JobValue → Bool
  | .dict d =>
    match d.get "company" with
    | some (.str company) => pyContains query_lower (pyLower company)
    | _ => false
  | .nonDict _ => false

/-- Stage-(c) predicate: some whitespace-split token of the normalized
query occurs as a whole word among the whitespace-split words of the
entry's lowercased title. -/
def wordMatch (query_lower : String) : JobValue → Bool
  | .dict d =>
    match d.get "title" with
    | some (.str title) =>
      let title_words := pySplit (pyLower title)
      (pySplit query_lower).any (fun w => title_words.contains w)
    | _ => false
  | .nonDict _ => false

/-- A well-formed entry for the title stages: a dict whose `title`
field is present and a string. -/
def hasStrTitle : JobValue → Bool
  | .dict d =>
    match d.get "title" with
    | some (.str _) => true
    | _ => false
  | .nonDict _ => false

/-- The first `for job in session.results` loop of `find_job_in_session`:
`continue` on non-dict entries and entries without a string title,
return the job on a title substring match. -/
def findTitleLoop (query_lower : String) : List JobValue → Option JobValue
  | [] => none
  | job :: rest =>
    match job with
    | .dict d =>
      match d.get "title" with
      | some (.str title) =>
        if pyContains query_lower (pyLower title) then some (.dict d)
        else findTitleLoop query_lower rest
      | _ => findTitleLoop query_lower rest
    | .nonDict _ => findTitleLoop query_lower rest

/-- The second loop of `find_job_in_session`: company substring match. -/
def findCompanyLoop (query_lower : String) : List JobValue → Option JobValue
  | [] => none
  | job :: rest =>
    match job with
    | .dict d =>
      match d.get "company" with
      | some (.str company) =>
        if pyContains query_lower (pyLower company) then some (.dict d)
        else findCompanyLoop query_lower rest
      | _ => findCompanyLoop query_lower rest
    | .nonDict _ => findCompanyLoop query_lower rest

/-- The third loop of `find_job_in_session`: partial title match on
whitespace-split words (`query_words` is computed once, outside). -/
def findWordLoop (query_words : List String) : List JobValue → Option JobValue
  | [] => none
  | job :: rest =>
    match job with
    | .dict d =>
      match d.get "title" with
      | some (.str title) =>
        if (query_words.any (fun w => (pySplit (pyLower title)).contains w)) then some (.dict d)
        else findWordLoop query_words rest
      | _ => findWordLoop query_words rest
    | .nonDict _ => findWordLoop query_words rest

/-- `SessionManager.find_job_in_session` (lines 75–137): resolve the
session (lazy expiry), normalize the query with `lower().strip()`, then
try the three stages in order. -/
def SessionManager.find_job_in_session (m : SessionManager) (now : Int)
    (session_id : String) (job_query : String) : Option JobValue × SessionManager :=
  match m.get_session now session_id with
  | (none, m1) => (none, m1)
  | (some session, m1) =>
    let query_lower := pyStrip (pyLower job_query)
    match findTitleLoop query_lower session.results with
    | some job => (some job, m1)
    | none =>
      match findCompanyLoop query_lower session.results with
      | some job => (some job, m1)
      | none =>
        (findWordLoop (pySplit query_lower) session.results, m1)

/-- `SessionManager.get_job_by_index` (lines 139–150): 1-based index;
absent when the zero-based index is out of range. -/
def SessionManager.get_job_by_index (m : SessionManager) (now : Int)
    (session_id : String) (job_index : Int) : Option JobValue × SessionManager :=
  match m.get_session now session_id with
  | (none, m1) => (none, m1)
  | (some session, m1) =>
    let zero_based_index := job_index - 1
    if zero_based_index < 0 ∨ zero_based_index ≥ (session.results.length : Int) then
      (none, m1)
    else
      (session.results.get? zero_based_index.toNat, m1)

/-- Python `max(iterable, key=lambda s: s.timestamp)`: first element
with the maximal key (replacement only on strict increase). -/
def maxByTimestamp (first : SearchSession) (rest : List SearchSession) : SearchSession :=
  rest.foldl (fun acc x => if x.timestamp > acc.timestamp then x else acc) first

/-- `SessionManager.get_recent_session` (lines 152–165): purge expired
sessions, then return the most recent remaining session, if any. -/
def SessionManager.get_recent_session (m : SessionManager) (now : Int) :
    Option SearchSession × SessionManager :=
  let m1 := m.cleanup_expired_sessions now
  match m1.sessions.map Prod.snd with
  | [] => (none, m1)
  | s :: rest => (some (maxByTimestamp s rest), m1)

/-- Rendering of a timestamp for the summary string.  The calendar
`strftime` formatting is not modelled; an injective stand-in is used
(the claims under study never inspect this text). -/
def formatTimestamp (t : Int) : String := toString t

/-- `", ".join(search_terms) if search_terms else "None"`. -/
def searchTermsText (terms : List String) : String :=
  if terms.isEmpty then "None" else String.intercalate ", " terms

/-- `SessionManager.get_session_summary` (lines 177–198). -/
def SessionManager.get_session_summary (m : SessionManager) (now : Int)
    (session_id : String) : Option String × SessionManager :=
  match m.get_session now session_id with
  | (none, m1) => (none, m1)
  | (some session, m1) =>
    (some ("Search Session: " ++ (session_id.take 8) ++ "...\n"
      ++ "Search Terms: " ++ searchTermsText session.search_terms ++ "\n"
      ++ "Location: " ++ session.zip_code ++ " (±" ++ toString session.radius ++ "km)\n"
      ++ "Results: " ++ toString session.results.length ++ " jobs found\n"
      ++ "Search Time: " ++ formatTimestamp session.timestamp), m1)

/-- `SessionManager.list_active_sessions` (lines 200–203). -/
def SessionManager.list_active_sessions (m : SessionManager) (now : Int) :
    List String × SessionManager :=
  let m1 := m.cleanup_expired_sessions now
  (m1.sessions.map Prod.fst, m1)

/-- One entry of the active-session overview. -/
structure OverviewEntry where
  session_id : String
  search_terms : String
  location : String
  result_count : Nat
  age_seconds : Int
deriving DecidableEq, Repr

/-- Stable descending insertion by timestamp: models Python
`sorted(..., key=lambda s: s.timestamp, reverse=True)` (stable sort). -/
def insertByTimestampDesc (s : SearchSession) : List SearchSession → List SearchSession
  | [] => [s]
  | x :: xs =>
    if s.timestamp ≥ x.timestamp then s :: x :: xs
    else x :: insertByTimestampDesc s xs

/-- Stable descending sort by timestamp. -/
def sortByTimestampDesc : List SearchSession → List SearchSession
  | [] => []
  | s :: rest => insertByTimestampDesc s (sortByTimestampDesc rest)

/-- Projection of one session to its overview entry (lines 226–241). -/
def overviewOf (now : Int) (session : SearchSession) : OverviewEntry :=
  { session_id := session.session_id
    search_terms := searchTermsText session.search_terms
    location := session.zip_code ++ " (±" ++ toString session.radius ++ "km)"
    result_count := session.results.length
    age_seconds := max 0 (now - session.timestamp) }

/-- `SessionManager.get_active_session_overview` (lines 205–243). -/
def SessionManager.get_active_session_overview (m : SessionManager) (now : Int) :
    List OverviewEntry × SessionManager :=
  let m1 := m.cleanup_expired_sessions now
  if m1.sessions.isEmpty then ([], m1)
  else
    ((sortByTimestampDesc (m1.sessions.map Prod.snd)).map (overviewOf now), m1)

/-! ## The `get_job_details` tool handler (`stepstone_server.py`,
`handle_call_tool`, lines 467–544).  The handler is modelled up to the
point where a stored job has been selected; the subsequent network
fetch and detail parsing of the selected job's page are outside the
selection logic the claims are about and are represented by the
`details` constructor carrying the selected job. -/

/-- Outcome of the `get_job_details` branch: either a user-facing text
message (validation or lookup failure) or "proceed to fetch details of
this selected job". -/
inductive ToolResult where
  | text (s : String)
  | details (job : JobValue)
deriving DecidableEq, Repr

/-- Python `a or b` on two optional strings (`arguments.get("query") or
arguments.get("job_query")`): the left value wins iff truthy. -/
def pyOrStr (a b : Option String) : Option String :=
  match a with
  | some s => if s = "" then b else some s
  | none => b

/-- Python truthiness of an optional string. -/
def truthyStr : Option String → Bool
  | some s => s ≠ ""
  | none => false

/-- The out-of-range hint built at lines 523–527. -/
def indexHint (session : SearchSession) : String :=
  if session.results.length ≠ 0 then
    "Valid job_index values are between 1 and " ++ toString session.results.length ++ "."
  else
    "There are no stored jobs for this session yet. Run a job search first."

/-- Job selection once a session is resolved (lines 518–539): a present
`job_index` is tried first and its failure is final; the query is
consulted only when no index was supplied.  The final catch-all arm is
unreachable from `handle_get_job_details` (a falsy query together with
an absent index is rejected earlier); in Python that path would fall
into the generic `except` reporter, which the arm mirrors. -/
def selectJob (m : SessionManager) (now : Int) (session : SearchSession)
    (query : Option String) (job_index : Option Int) : ToolResult × SessionManager :=
  match job_index with
  | some ji =>
    match m.get_job_by_index now session.session_id ji with
    | (some job, m1) =>
      if job.isTruthy then (.details job, m1)
      else (.text ("No job found at the requested index. " ++ indexHint session), m1)
    | (none, m1) =>
      (.text ("No job found at the requested index. " ++ indexHint session), m1)
  | none =>
    match query with
    | some q =>
      if q = "" then (.text "Error retrieving job details: job is None", m)
      else
        match m.find_job_in_session now session.session_id q with
        | (some job, m1) => (.details job, m1)
        | (none, m1) => (.text ("No job found matching: " ++ q), m1)
    | none => (.text "Error retrieving job details: job is None", m)

/-- Session resolution (lines 499–516): a truthy `session_id` selects
that session via `get_session`; otherwise the most recent active
session is used. -/
def resolveAndSelect (m : SessionManager) (now : Int) (query : Option String)
    (session_id : Option String) (job_index : Option Int) : ToolResult × SessionManager :=
  if truthyStr session_id then
    match session_id with
    | some sid =>
      match m.get_session now sid with
      | (none, m1) =>
        (.text "Session not found or expired. Please provide an active session_id or run a new job search.", m1)
      | (some session, m1) => selectJob m1 now session query job_index
    | none =>
      (.text "Session not found or expired. Please provide an active session_id or run a new job search.", m)
  else
    match m.get_recent_session now with
    | (none, m1) =>
      (.text "No jobs available in the selected session. Please perform a new search.", m1)
    | (some session, m1) => selectJob m1 now session query job_index

/-- The `get_job_details` branch of `handle_call_tool` (lines 467–544):
alias resolution `query or job_query`, validation of `job_index` and of
the presence of a selector, then session resolution and job selection. -/
def handle_get_job_details (m : SessionManager) (now : Int)
    (argQuery argJobQuery argSessionId : Option String) (argJobIndex : Option Int) :
    ToolResult × SessionManager :=
  let query := pyOrStr argQuery argJobQuery
  match argJobIndex with
  | some ji =>
    if ji < 1 then
      (.text "Error: job_index must be an integer greater than or equal to 1", m)
    else
      resolveAndSelect m now query argSessionId (some ji)
  | none =>
    if truthyStr query then
      resolveAndSelect m now query argSessionId none
    else
      (.text "Error: provide either a query string or a job_index to identify the job (job_query is also accepted)", m)

/-! ## `StepstoneJobScraper` configuration and throttling
(`stepstone_server.py`, lines 44–109) -/

/-- `DEFAULT_USER_AGENTS` (lines 44–51). -/
def DEFAULT_USER_AGENTS : List String :=
  ["Mozilla/5.0 (Windows NT 10.0; Win64; x64) AppleWebKit/537.36 (KHTML, like Gecko) Chrome/120.0.0.0 Safari/537.36",
   "Mozilla/5.0 (Macintosh; Intel Mac OS X 10_15_7) AppleWebKit/605.1.15 (KHTML, like Gecko) Version/17.0 Safari/605.1.15",
   "Mozilla/5.0 (X11; Linux x86_64) AppleWebKit/537.36 (KHTML, like Gecko) Chrome/120.0.0.0 Safari/537.36"]

/-- The state established by a successful `StepstoneJobScraper.__init__`.
Delays are rationals (Python floats; the values in play are exact). -/
structure ScraperConfig where
  min_delay : ℚ
  max_delay : ℚ
  max_retries : Int
  backoff_factor : ℚ
  request_timeout : Int
  agents : List String
deriving DecidableEq, Repr

/-- `StepstoneJobScraper.__init__` (lines 57–91): eager validation of
the delay window, then resolution of the User-Agent pool — a falsy
(absent or empty) `user_agents` argument falls back to
`DEFAULT_USER_AGENTS` before the emptiness check. -/
def StepstoneJobScraper.init (min_delay max_delay : ℚ) (max_retries : Int)
    (backoff_factor : ℚ) (user_agents : Option (List String)) (request_timeout : Int) :
    Except String ScraperConfig :=
  if min_delay < 0 ∨ max_delay < 0 then
    .error "Delay values must be non-negative"
  else if max_delay < min_delay then
    .error "max_delay must be greater than or equal to min_delay"
  else
    let agents :=
      match user_agents with
      | some l => if l.isEmpty then DEFAULT_USER_AGENTS else l
      | none => DEFAULT_USER_AGENTS
    if agents.isEmpty then
      .error "At least one User-Agent must be provided"
    else
      .ok { min_delay := min_delay, max_delay := max_delay, max_retries := max_retries,
            backoff_factor := backoff_factor, request_timeout := request_timeout,
            agents := agents }

/-- `StepstoneJobScraper._apply_throttle` (lines 99–105).  `u` models
the value drawn by `random.uniform(min_delay, max_delay)` (sampled only
when the guard is passed; a caller supplies any value in the window).
Returns the delay value returned by the method and whether `time.sleep`
was invoked. -/
def StepstoneJobScraper.apply_throttle (cfg : ScraperConfig) (u : ℚ) : ℚ × Bool :=
  if cfg.max_delay = 0 then (0, false)
  else (u, decide (u > 0))

/-- `StepstoneJobScraper._calculate_backoff` (lines 107–109). -/
def StepstoneJobScraper.calculate_backoff (cfg : ScraperConfig) (attempt : Nat) : ℚ :=
  max (cfg.min_delay * cfg.backoff_factor ^ attempt) 0

/-! ## Listing extraction (`stepstone_server.py`,
`fetch_job_listings`, lines 111–221).  The per-article DOM queries
(link-candidate choice, title/company/description selector fallbacks)
are abstracted into a `RawItem` record per surviving article — one per
`<article>` whose candidate link search succeeded — carrying the chosen
href and the already-extracted text fields.  What is embedded exactly
is the accumulation loop from `link = job_link['href']` on:
absolute-URL normalization, the `seen_links`/company-profile skip, and
the append of the summary record. -/

/-- The data taken from one article node once a candidate link has been
chosen: its raw href and the extracted title/company/description. -/
structure RawItem where
  href : String
  title : String
  company : String
  description : String
deriving DecidableEq, Repr

/-- The listing-level job record appended to `jobs` (lines 199–204). -/
structure JobSummary where
  title : String
  company : String
  description : String
  link : String
deriving DecidableEq, Repr

/-- Link normalization (lines 178–180): prefix the site origin unless
the href is already absolute. -/
def normalizeLink (href : String) : String :=
  if pyStartsWith "http" href then href else "https://www.stepstone.de" ++ href

/-- The summary built from one surviving article. -/
def mkSummary (item : RawItem) : JobSummary :=
  { title := item.title, company := item.company,
    description := item.description, link := normalizeLink item.href }

/-- The accumulation loop of `fetch_job_listings` (lines 130–204):
for each article, normalize the link, skip it when already seen or when
it is a company-profile (`/cmp/`) link, otherwise record the link as
seen and append the summary. -/
def processArticlesLoop : List RawItem → List String → List JobSummary
  | [], _ => []
  | item :: rest, seen_links =>
    let link := normalizeLink item.href
    if seen_links.contains link ∨ pyContains "/cmp/" link then
      processArticlesLoop rest seen_links
    else
      mkSummary item :: processArticlesLoop rest (link :: seen_links)

/-- One extraction call over the surviving articles of a page
(`jobs = []`, `seen_links = set()` at lines 130–131). -/
def extractSummaries (items : List RawItem) : List JobSummary :=
  processArticlesLoop items []

/-! ## Detail-page fetching and parsing errors
(`job_detail_parser.py`, lines 21–116).  The HTTP request is modelled
by its outcome (`.error msg` is a raised `requests.RequestException`
with `str(e) = msg`); the body-building work of lines 36–109 (all the
soup extraction and the `JobDetails(**...)` construction) is modelled
by a caller-supplied function from the fetched HTML to its outcome,
since the claim under study is about how its exceptions are
classified, not about what it extracts. -/

/-- The Python exceptions that matter on this path. -/
inductive PyExc where
  | requestException (msg : String)
  | networkError (msg : String)
  | pageParseError (msg : String)
  | otherExc (msg : String)
deriving DecidableEq, Repr

/-- `str(e)` of an exception: its message. -/
def PyExc.message : PyExc → String
  | .requestException m => m
  | .networkError m => m
  | .pageParseError m => m
  | .otherExc m => m

/-- The detail record built by `parse_job_details` (the dataclass
`JobDetails` of `job_details_models.py`, string-coerced fields). -/
structure JobDetailsRec where
  title : String
  company : String
  location : String
  salary : Option String
  employment_type : Option String
  experience_level : Option String
  posted_date : Option String
  description : String
  requirements : List String
  responsibilities : List String
  benefits : List String
  company_details : List (String × String)
  application_instructions : String
  contact_info : List (String × String)
  job_url : String
deriving DecidableEq, Repr

/-- `JobDetailParser.fetch_job_page` (lines 21–29): a transport failure
(`requests.RequestException`) is caught and re-raised as `NetworkError`
with the original message appended. -/
def JobDetailParser.fetch_job_page (httpResult : Except String String) :
    Except PyExc String :=
  match httpResult with
  | .ok body => .ok body
  | .error msg => .error (.networkError ("Failed to fetch job page: " ++ msg))

/-- `JobDetailParser.parse_job_details` (lines 31–116): the whole body
— including the `fetch_job_page` call — runs inside one
`try ... except Exception`, whose handler re-raises `PageParseError`
with message `"Failed to parse job details: " ++ str(e)`.  `build`
models lines 36–109. -/
def JobDetailParser.parse_job_details (url : String)
    (httpResult : Except String String)
    (build : String → Except PyExc JobDetailsRec) : Except PyExc JobDetailsRec :=
  let tryBody : Except PyExc JobDetailsRec :=
    match JobDetailParser.fetch_job_page httpResult with
    | .error e => .error e
    | .ok html => build html
  match tryBody with
  | .ok d => .ok d
  | .error e => .error (.pageParseError ("Failed to parse job details: " ++ e.message))

/-! ## Concrete instances used by the witnesses and counterexamples -/

/-- A stored job entry (title, company, description, link fields). -/
def c1job1 : JobValue :=
  .dict ⟨[("title", PyVal.str "Fraud Analyst"), ("company", PyVal.str "Secure Corp"),
          ("link", PyVal.str "https://example.com/job/1")]⟩

def c1job2 : JobValue :=
  .dict ⟨[("title", PyVal.str "Data Scientist"), ("company", PyVal.str "DataWorks"),
          ("link", PyVal.str "https://example.com/job/2")]⟩

def c1job3 : JobValue :=
  .dict ⟨[("title", PyVal.str "Compliance Officer"), ("company", PyVal.str "RegCo"),
          ("link", PyVal.str "https://example.com/job/3")]⟩

def c1session : SearchSession :=
  { session_id := "sess-1", search_terms := ["fraud"], zip_code := "40210",
    radius := 5, results := [c1job1, c1job2, c1job3], timestamp := 0 }

def c1mgr : SessionManager :=
  { sessions := [("sess-1", c1session)], session_timeout := 3600 }

def c2mgr : SessionManager := { sessions := [], session_timeout := 3600 }

def c3session : SearchSession :=
  { session_id := "sess-3", search_terms := ["fraud"], zip_code := "40210",
    radius := 5, results := [c1job1], timestamp := 0 }

def c3mgr : SessionManager :=
  { sessions := [("sess-3", c3session)], session_timeout := 10 }

def c4session : SearchSession :=
  { session_id := "sess-4", search_terms := [], zip_code := "40210",
    radius := 5, results := [], timestamp := 0 }

def c4mgr : SessionManager :=
  { sessions := [("sess-4", c4session)], session_timeout := 10 }

def c5bad1 : JobValue :=
  .dict ⟨[("title", PyVal.notStr 0), ("company", PyVal.str "Alpha Corp")]⟩

def c5bad2 : JobValue := .dict ⟨[("company", PyVal.str "Beta Corp")]⟩

def c5bad3 : JobValue := .nonDict true

def c5good : JobDict :=
  ⟨[("title", PyVal.str "Senior Data Scientist"), ("company", PyVal.str "Gamma")]⟩

def c5session : SearchSession :=
  { session_id := "sess-5", search_terms := ["data"], zip_code := "40210",
    radius := 5, results := [c5bad1, c5bad2, c5bad3, .dict c5good], timestamp := 0 }

def c5mgr : SessionManager :=
  { sessions := [("sess-5", c5session)], session_timeout := 3600 }

def c6item : RawItem :=
  ⟨"/stellenangebote--data-analyst--111-inline.html", "Data Analyst", "ACME", "desc"⟩

def c6cmpItem : RawItem :=
  ⟨"/cmp/acme-profile", "ACME profile", "ACME", "profile"⟩

def c6dupItem : RawItem :=
  ⟨"/stellenangebote--data-analyst--111-inline.html", "Data Analyst (dup)", "Other", "dup"⟩

def c6items : List RawItem := [c6item, c6cmpItem, c6dupItem]

def c7details : JobDetailsRec :=
  { title := "Unknown Title", company := "Unknown Company",
    location := "Location not specified", salary := none, employment_type := none,
    experience_level := none, posted_date := none,
    description := "Description not available", requirements := [],
    responsibilities := [], benefits := [], company_details := [],
    application_instructions := "Application instructions not provided",
    contact_info := [], job_url := "https://www.stepstone.de/job/1" }

def c9cfg : ScraperConfig :=
  { min_delay := 1, max_delay := 1, max_retries := 3, backoff_factor := 2,
    request_timeout := 10, agents := DEFAULT_USER_AGENTS }

def c10titled : JobDict := ⟨[("title", PyVal.str "Backend Engineer")]⟩

def c10session : SearchSession :=
  { session_id := "sess-10", search_terms := [], zip_code := "40210",
    radius := 5, results := [.nonDict false, .dict c10titled], timestamp := 0 }

def c10mgr : SessionManager :=
  { sessions := [("sess-10", c10session)], session_timeout := 3600 }

/-! # Theorems -/

/-! ## Association-list (dict) lemmas -/

theorem dictLookup_cons_pos (q : String × SearchSession) (t : List (String × SearchSession))
    (k : String) (h : q.1 = k) : dictLookup (q :: t) k = some q.2 := by
  unfold dictLookup
  rw [List.find?_cons_of_pos _ (by simp [h])]
  rfl

theorem dictLookup_cons_neg (q : String × SearchSession) (t : List (String × SearchSession))
    (k : String) (h : q.1 ≠ k) : dictLookup (q :: t) k = dictLookup t k := by
  unfold dictLookup
  rw [List.find?_cons_of_neg _ (by simp [h])]

theorem dictLookup_append_right (l1 l2 : List (String × SearchSession)) (k : String)
    (h : ∀ q ∈ l1, q.1 ≠ k) : dictLookup (l1 ++ l2) k = dictLookup l2 k := by
  induction l1 with
  | nil => simp
  | cons q t ih =>
    rw [List.cons_append, dictLookup_cons_neg q _ k (h q (by simp))]
    exact ih (fun r hr => h r (by simp [hr]))

theorem dictLookup_mapSet (l : List (String × SearchSession)) (k : String) (v : SearchSession)
    (h : l.any (fun p => p.1 = k) = true) :
    dictLookup (l.map (fun p => if p.1 = k then (k, v) else p)) k = some v := by
  induction l with
  | nil => simp at h
  | cons q t ih =>
    simp only [List.any_cons, Bool.or_eq_true, decide_eq_true_eq] at h
    simp only [List.map_cons]
    by_cases hq : q.1 = k
    · rw [if_pos hq, dictLookup_cons_pos _ _ _ rfl]
    · rw [if_neg hq, dictLookup_cons_neg _ _ _ hq]
      exact ih (by simpa using h.resolve_left hq)

/-- After `d[k] = v`, looking up `k` finds `v`. -/
theorem dictLookup_dictSet (l : List (String × SearchSession)) (k : String) (v : SearchSession) :
    dictLookup (dictSet l k v) k = some v := by
  unfold dictSet
  by_cases h : l.any (fun p => p.1 = k) = true
  · rw [if_pos h]
    exact dictLookup_mapSet l k v h
  · rw [if_neg h]
    have hnone : ∀ q ∈ l, q.1 ≠ k := by
      intro q hq hqk
      exact h (List.any_eq_true.mpr ⟨q, hq, decide_eq_true hqk⟩)
    rw [dictLookup_append_right _ _ _ hnone]
    exact dictLookup_cons_pos (k, v) [] k rfl

/-- After `d[k] = v`, every binding of `k` carries `v`. -/
theorem dictSet_unique (l : List (String × SearchSession)) (k : String) (v : SearchSession) :
    ∀ q ∈ dictSet l k v, q.1 = k → q.2 = v := by
  intro q hq hk
  unfold dictSet at hq
  by_cases h : l.any (fun p => p.1 = k) = true
  · rw [if_pos h] at hq
    obtain ⟨p, hp, hpq⟩ := List.mem_map.mp hq
    by_cases hp1 : p.1 = k
    · rw [if_pos hp1] at hpq
      rw [← hpq]
    · rw [if_neg hp1] at hpq
      exact absurd (hpq ▸ hk) hp1
  · rw [if_neg h] at hq
    rcases List.mem_append.mp hq with h1 | h2
    · exact absurd (List.any_eq_true.mpr ⟨q, h1, decide_eq_true hk⟩) h
    · rw [List.mem_singleton.mp h2]

/-- Filtering preserves the binding of `k` when every binding of `k`
carries `v` and the filter keeps `(k, v)`. -/
theorem dictLookup_filter (l : List (String × SearchSession)) (k : String) (v : SearchSession)
    (p : String × SearchSession → Bool)
    (h1 : dictLookup l k = some v) (h2 : p (k, v) = true)
    (h3 : ∀ q ∈ l, q.1 = k → q.2 = v) :
    dictLookup (l.filter p) k = some v := by
  induction l with
  | nil => simp [dictLookup] at h1
  | cons q t ih =>
    by_cases hq : q.1 = k
    · have hq' : q = (k, v) := by
        obtain ⟨q1, q2⟩ := q
        have := h3 (q1, q2) (by simp) hq
        simp_all
      rw [List.filter_cons, hq', if_pos (by exact h2)]
      exact dictLookup_cons_pos _ _ _ rfl
    · rw [dictLookup_cons_neg _ _ _ hq] at h1
      rw [List.filter_cons]
      by_cases hp : p q = true
      · rw [if_pos hp, dictLookup_cons_neg _ _ _ hq]
        exact ih h1 (fun r hr => h3 r (by simp [hr]))
      · rw [if_neg hp]
        exact ih h1 (fun r hr => h3 r (by simp [hr]))

/-- A stored, non-expired session is returned by `get_session` with
the store untouched. -/
theorem get_session_of_lookup (m : SessionManager) (now : Int) (sid : String)
    (s : SearchSession) (hl : dictLookup m.sessions sid = some s)
    (he : s.is_expired now m.session_timeout = false) :
    m.get_session now sid = (some s, m) := by
  unfold SessionManager.get_session
  rw [hl]
  simp [he]

/-- A stored but expired session is evicted and reported absent. -/
theorem get_session_of_expired (m : SessionManager) (now : Int) (sid : String)
    (s : SearchSession) (hl : dictLookup m.sessions sid = some s)
    (he : s.is_expired now m.session_timeout = true) :
    m.get_session now sid =
      (none, { m with sessions := dictDelete m.sessions sid }) := by
  unfold SessionManager.get_session
  rw [hl]
  simp [he]

/-- A successful `get_session` read leaves the store untouched and
implies presence and non-expiry. -/
theorem get_session_eq_some (m : SessionManager) (now : Int) (sid : String) (s : SearchSession)
    (h : (m.get_session now sid).1 = some s) :
    m.get_session now sid = (some s, m) ∧ dictLookup m.sessions sid = some s ∧
      s.is_expired now m.session_timeout = false := by
  cases hl : dictLookup m.sessions sid with
  | none =>
    unfold SessionManager.get_session at h
    rw [hl] at h
    exact absurd h (by simp)
  | some s0 =>
    cases he : s0.is_expired now m.session_timeout with
    | true =>
      rw [get_session_of_expired m now sid s0 hl he] at h
      exact absurd h (by simp)
    | false =>
      have hpair := get_session_of_lookup m now sid s0 hl he
      rw [hpair] at h
      have hs : s0 = s := by simpa using h
      subst hs
      exact ⟨hpair, rfl, he⟩

/-- With unique keys, every stored binding of `k` carries the looked-up
value. -/
theorem dictLookup_eq_of_nodup (l : List (String × SearchSession)) (k : String)
    (v : SearchSession) (hnodup : (l.map Prod.fst).Nodup)
    (hl : dictLookup l k = some v) :
    ∀ p ∈ l, p.1 = k → p.2 = v := by
  induction l with
  | nil => intro p hp; simp at hp
  | cons q t ih =>
    intro p hp hpk
    simp only [List.map_cons, List.nodup_cons] at hnodup
    rcases List.mem_cons.mp hp with rfl | hpt
    · rw [dictLookup_cons_pos p t k hpk] at hl
      exact Option.some.inj hl
    · by_cases hqk : q.1 = k
      · exact absurd (List.mem_map.mpr ⟨p, hpt, hpk.trans hqk.symm⟩) hnodup.1
      · rw [dictLookup_cons_neg q t k hqk] at hl
        exact ih hnodup.2 hl p hpt hpk

theorem mem_insertByTimestampDesc (x s : SearchSession) (l : List SearchSession) :
    x ∈ insertByTimestampDesc s l ↔ x = s ∨ x ∈ l := by
  induction l with
  | nil => simp [insertByTimestampDesc]
  | cons y t ih =>
    unfold insertByTimestampDesc
    by_cases h : s.timestamp ≥ y.timestamp
    · rw [if_pos h]
      simp
    · rw [if_neg h]
      simp only [List.mem_cons, ih]
      tauto

theorem mem_sortByTimestampDesc (x : SearchSession) (l : List SearchSession) :
    x ∈ sortByTimestampDesc l ↔ x ∈ l := by
  induction l with
  | nil => simp [sortByTimestampDesc]
  | cons y t ih =>
    unfold sortByTimestampDesc
    rw [mem_insertByTimestampDesc]
    simp [ih]

/-- `max` over the stored sessions returns one of them. -/
theorem maxByTimestamp_mem (first : SearchSession) (rest : List SearchSession) :
    maxByTimestamp first rest ∈ first :: rest := by
  induction rest generalizing first with
  | nil => simp [maxByTimestamp]
  | cons x t ih =>
    unfold maxByTimestamp
    rw [List.foldl_cons]
    have hmem := ih (if x.timestamp > first.timestamp then x else first)
    unfold maxByTimestamp at hmem
    rcases List.mem_cons.mp hmem with h | h
    · rw [h]
      by_cases hc : x.timestamp > first.timestamp
      · rw [if_pos hc]
        exact List.mem_cons_of_mem _ (List.mem_cons_self _ _)
      · rw [if_neg hc]
        exact List.mem_cons_self _ _
    · exact List.mem_cons_of_mem _ (List.mem_cons_of_mem _ h)

/-- Every binding that survives the lazy cleanup is non-expired. -/
theorem mem_cleanup_not_expired (m : SessionManager) (now : Int)
    (p : String × SearchSession)
    (hp : p ∈ (m.cleanup_expired_sessions now).sessions) :
    p.2.is_expired now m.session_timeout = false := by
  unfold SessionManager.cleanup_expired_sessions at hp
  simpa using (List.mem_filter.mp hp).2

theorem mem_cleanup_mem (m : SessionManager) (now : Int) (p : String × SearchSession)
    (hp : p ∈ (m.cleanup_expired_sessions now).sessions) : p ∈ m.sessions := by
  unfold SessionManager.cleanup_expired_sessions at hp
  exact (List.mem_filter.mp hp).1

/-! ## C3: expired sessions are unreachable -/

/-- C3: a stored session whose age strictly exceeds the timeout (the
code's exact expiry condition, stated in the last conjunct) is treated
as absent by every lookup path — `get`, `find_by_query`, `get_by_index`,
the summary, the active-session listing, the overview projection, and
`get_recent` (which only ever returns non-expired sessions) — even
while still physically present in the mapping. -/
theorem c3_expired_unreachable (m : SessionManager) (now : Int) (sid : String)
    (s : SearchSession)
    (hnodup : (m.sessions.map Prod.fst).Nodup)
    (hkeys : ∀ p ∈ m.sessions, p.2.session_id = p.1)
    (hlookup : dictLookup m.sessions sid = some s)
    (hexp : s.is_expired now m.session_timeout = true) :
    (m.get_session now sid).1 = none ∧
    (∀ q, (m.find_job_in_session now sid q).1 = none) ∧
    (∀ ji, (m.get_job_by_index now sid ji).1 = none) ∧
    (m.get_session_summary now sid).1 = none ∧
    sid ∉ (m.list_active_sessions now).1 ∧
    (∀ o ∈ (m.get_active_session_overview now).1, o.session_id ≠ sid) ∧
    (∀ s2, (m.get_recent_session now).1 = some s2 →
      s2.is_expired now m.session_timeout = false) ∧
    (∀ (s3 : SearchSession) (t τ : Int), s3.is_expired t τ = true ↔ t - s3.timestamp > τ) := by
  have hget := get_session_of_expired m now sid s hlookup hexp
  refine ⟨by rw [hget], ?_, ?_, ?_, ?_, ?_, ?_, ?_⟩
  · intro q
    unfold SessionManager.find_job_in_session
    rw [hget]
  · intro ji
    unfold SessionManager.get_job_by_index
    rw [hget]
  · unfold SessionManager.get_session_summary
    rw [hget]
  · intro hmem
    unfold SessionManager.list_active_sessions at hmem
    dsimp only at hmem
    obtain ⟨p, hp, hp1⟩ := List.mem_map.mp hmem
    have hne := mem_cleanup_not_expired m now p hp
    have hpv : p.2 = s :=
      dictLookup_eq_of_nodup m.sessions sid s hnodup hlookup p (mem_cleanup_mem m now p hp) hp1
    rw [hpv, hexp] at hne
    exact absurd hne (by simp)
  · intro o ho hosid
    unfold SessionManager.get_active_session_overview at ho
    dsimp only at ho
    by_cases hempty : (m.cleanup_expired_sessions now).sessions.isEmpty = true
    · rw [if_pos hempty] at ho
      simp at ho
    · rw [if_neg hempty] at ho
      simp only [List.mem_map] at ho
      obtain ⟨s2, hs2, ho2⟩ := ho
      rw [mem_sortByTimestampDesc] at hs2
      obtain ⟨p, hp, hps⟩ := List.mem_map.mp hs2
      have hid : s2.session_id = sid := by
        rw [← ho2] at hosid
        simpa [overviewOf] using hosid
      have hp1 : p.1 = sid := by
        rw [← hid, ← hps]
        exact (hkeys p (mem_cleanup_mem m now p hp)).symm ▸ rfl
      have hpv : p.2 = s :=
        dictLookup_eq_of_nodup m.sessions sid s hnodup hlookup p (mem_cleanup_mem m now p hp) hp1
      have hne := mem_cleanup_not_expired m now p hp
      rw [hpv, hexp] at hne
      exact absurd hne (by simp)
  · intro s2 h2
    unfold SessionManager.get_recent_session at h2
    dsimp only at h2
    cases hms : (m.cleanup_expired_sessions now).sessions.map Prod.snd with
    | nil =>
      rw [hms] at h2
      simp at h2
    | cons a rest =>
      rw [hms] at h2
      dsimp only at h2
      have hmax := maxByTimestamp_mem a rest
      rw [← hms] at hmax
      obtain ⟨p, hp, hps⟩ := List.mem_map.mp hmax
      have hs2 : maxByTimestamp a rest = s2 := by simpa using h2
      rw [hs2] at hps
      have hne := mem_cleanup_not_expired m now p hp
      rw [hps] at hne
      exact hne
  · intro s3 t τ
    simp [SearchSession.is_expired]

/-- C3 witness: a session aged 100 with timeout 10 is invisible to
`get`, `find_by_query` and the active listing. -/
theorem c3_expired_unreachable_witness :
    (c3mgr.get_session 100 "sess-3").1 = none ∧
    (c3mgr.find_job_in_session 100 "sess-3" "fraud").1 = none ∧
    "sess-3" ∉ (c3mgr.list_active_sessions 100).1 :=
  have h := c3_expired_unreachable c3mgr 100 "sess-3" c3session
    (by decide) (by decide) (by decide) (by decide)
  ⟨h.1, h.2.1 "fraud", h.2.2.2.2.1⟩

/-! ## The three lookup loops are first-match searches -/

theorem findTitleLoop_eq_find (ql : String) (l : List JobValue) :
    findTitleLoop ql l = l.find? (titleMatch ql) := by
  induction l with
  | nil => rfl
  | cons j rest ih =>
    cases j with
    | nonDict b =>
      unfold findTitleLoop
      dsimp only
      rw [List.find?_cons_of_neg _ (by simp [titleMatch]), ih]
    | dict d =>
      unfold findTitleLoop
      dsimp only
      cases ht : d.get "title" with
      | none =>
        dsimp only
        rw [List.find?_cons_of_neg _ (by simp [titleMatch, ht]), ih]
      | some pv =>
        cases pv with
        | str t =>
          dsimp only
          by_cases hc : pyContains ql (pyLower t) = true
          · rw [if_pos hc, List.find?_cons_of_pos _ (by simp [titleMatch, ht, hc])]
          · rw [if_neg hc, List.find?_cons_of_neg _ (by simp [titleMatch, ht, hc]), ih]
        | notStr n =>
          dsimp only
          rw [List.find?_cons_of_neg _ (by simp [titleMatch, ht]), ih]

theorem findCompanyLoop_eq_find (ql : String) (l : List JobValue) :
    findCompanyLoop ql l = l.find? (companyMatch ql) := by
  induction l with
  | nil => rfl
  | cons j rest ih =>
    cases j with
    | nonDict b =>
      unfold findCompanyLoop
      dsimp only
      rw [List.find?_cons_of_neg _ (by simp [companyMatch]), ih]
    | dict d =>
      unfold findCompanyLoop
      dsimp only
      cases ht : d.get "company" with
      | none =>
        dsimp only
        rw [List.find?_cons_of_neg _ (by simp [companyMatch, ht]), ih]
      | some pv =>
        cases pv with
        | str t =>
          dsimp only
          by_cases hc : pyContains ql (pyLower t) = true
          · rw [if_pos hc, List.find?_cons_of_pos _ (by simp [companyMatch, ht, hc])]
          · rw [if_neg hc, List.find?_cons_of_neg _ (by simp [companyMatch, ht, hc]), ih]
        | notStr n =>
          dsimp only
          rw [List.find?_cons_of_neg _ (by simp [companyMatch, ht]), ih]

theorem findWordLoop_eq_find (ql : String) (l : List JobValue) :
    findWordLoop (pySplit ql) l = l.find? (wordMatch ql) := by
  induction l with
  | nil => rfl
  | cons j rest ih =>
    cases j with
    | nonDict b =>
      unfold findWordLoop
      dsimp only
      rw [List.find?_cons_of_neg _ (by simp [wordMatch]), ih]
    | dict d =>
      unfold findWordLoop
      dsimp only
      cases ht : d.get "title" with
      | none =>
        dsimp only
        rw [List.find?_cons_of_neg _ (by simp [wordMatch, ht]), ih]
      | some pv =>
        cases pv with
        | str t =>
          dsimp only
          by_cases hc : ((pySplit ql).any
              (fun w => (pySplit (pyLower t)).contains w)) = true
          · rw [if_pos hc, List.find?_cons_of_pos _ (by
              simp only [wordMatch, ht]
              exact hc)]
          · rw [if_neg hc, List.find?_cons_of_neg _ (by
              simp only [wordMatch, ht]
              exact hc), ih]
        | notStr n =>
          dsimp only
          rw [List.find?_cons_of_neg _ (by simp [wordMatch, ht]), ih]

/-! ## C5: the query-matching priority of `find_by_query` -/

/-- C5: for a resolved session, `find_by_query` matches in priority
order: first entry whose title contains the normalized
(lowercased/stripped) query as a substring; else first entry whose
company contains it; else first entry whose title contains some
whitespace-split token of the query as a whole word; else absent.
Malformed entries (non-dicts, and dicts missing a string field being
compared — the predicates are false on them) are skipped at every
stage, and whatever is returned is always a well-formed dict. -/
theorem c5_find_priority (m : SessionManager) (now : Int) (sid : String) (q : String)
    (session : SearchSession)
    (hres : (m.get_session now sid).1 = some session) :
    ((m.find_job_in_session now sid q).1 =
      (match session.results.find? (titleMatch (pyStrip (pyLower q))) with
       | some j => some j
       | none =>
         match session.results.find? (companyMatch (pyStrip (pyLower q))) with
         | some j => some j
         | none => session.results.find? (wordMatch (pyStrip (pyLower q))))) ∧
    (∀ j, (m.find_job_in_session now sid q).1 = some j → ∃ d, j = JobValue.dict d) := by
  obtain ⟨hpair, -, -⟩ := get_session_eq_some m now sid session hres
  have hval : (m.find_job_in_session now sid q).1 =
      (match session.results.find? (titleMatch (pyStrip (pyLower q))) with
       | some j => some j
       | none =>
         match session.results.find? (companyMatch (pyStrip (pyLower q))) with
         | some j => some j
         | none => session.results.find? (wordMatch (pyStrip (pyLower q)))) := by
    unfold SessionManager.find_job_in_session
    rw [hpair]
    dsimp only
    rw [findTitleLoop_eq_find, findCompanyLoop_eq_find, findWordLoop_eq_find]
    cases session.results.find? (titleMatch (pyStrip (pyLower q))) with
    | some j => rfl
    | none =>
      cases session.results.find? (companyMatch (pyStrip (pyLower q))) with
      | some j => rfl
      | none =>
        cases session.results.find? (wordMatch (pyStrip (pyLower q))) with
        | some j => rfl
        | none => rfl
  refine ⟨hval, ?_⟩
  intro j hj
  rw [hval] at hj
  have hdict : ∀ (p : JobValue → Bool), (∀ b, p (JobValue.nonDict b) = false) →
      ∀ j0, session.results.find? p = some j0 → ∃ d, j0 = JobValue.dict d := by
    intro p hp j0 hfind
    have hptrue := List.find?_some hfind
    cases j0 with
    | dict d => exact ⟨d, rfl⟩
    | nonDict b => rw [hp b] at hptrue; exact absurd hptrue (by simp)
  cases hA : session.results.find? (titleMatch (pyStrip (pyLower q))) with
  | some j0 =>
    rw [hA] at hj
    have hj0 : j0 = j := by simpa using hj
    exact hj0 ▸ hdict _ (fun b => rfl) j0 hA
  | none =>
    rw [hA] at hj
    cases hB : session.results.find? (companyMatch (pyStrip (pyLower q))) with
    | some j0 =>
      rw [hB] at hj
      have hj0 : j0 = j := by simpa using hj
      exact hj0 ▸ hdict _ (fun b => rfl) j0 hB
    | none =>
      rw [hB] at hj
      exact hdict _ (fun b => rfl) j hj

/-- C5 witness: the claim's concrete scenario — a query
`"data scientist"` against results holding a dict with a non-string
title, a dict missing the title, a non-dict entry, and one matching
entry — returns the matching entry, skipping the malformed ones. -/
theorem c5_find_priority_witness :
    (c5mgr.find_job_in_session 0 "sess-5" "data scientist").1 =
      some (JobValue.dict c5good) := by
  have h := (c5_find_priority c5mgr 0 "sess-5" "data scientist" c5session rfl).1
  rw [h]
  decide

/-! ## C10: the empty query matches the first well-formed title -/

theorem pyContains_empty (s : String) : pyContains "" s = true := by
  unfold pyContains
  simp only [decide_eq_true_eq]
  exact ⟨[], s.toList, by simp⟩

theorem titleMatch_empty (j : JobValue) : titleMatch "" j = hasStrTitle j := by
  cases j with
  | nonDict b => rfl
  | dict d =>
    unfold titleMatch hasStrTitle
    dsimp only
    cases ht : d.get "title" with
    | none => dsimp only
    | some pv =>
      cases pv with
      | str t =>
        dsimp only
        exact pyContains_empty (pyLower t)
      | notStr n => dsimp only

/-- C10: when the normalized query is empty (empty or whitespace-only
input), `find_by_query` on a resolved session returns the first entry
that is a dict with a string title — the empty string is a substring of
every title — rather than absent. -/
theorem c10_empty_query (m : SessionManager) (now : Int) (sid : String) (q : String)
    (session : SearchSession) (j : JobValue)
    (hres : (m.get_session now sid).1 = some session)
    (hq : pyStrip (pyLower q) = "")
    (hj : session.results.find? hasStrTitle = some j) :
    (m.find_job_in_session now sid q).1 = some j := by
  obtain ⟨hpair, -, -⟩ := get_session_eq_some m now sid session hres
  unfold SessionManager.find_job_in_session
  rw [hpair]
  dsimp only
  rw [hq, findTitleLoop_eq_find]
  have hfind : session.results.find? (titleMatch "") = some j := by
    rw [show titleMatch "" = hasStrTitle from funext titleMatch_empty]
    exact hj
  rw [hfind]

/-- C10 witness: a whitespace-only query returns the first titled dict,
skipping a leading non-dict entry. -/
theorem c10_empty_query_witness :
    (c10mgr.find_job_in_session 0 "sess-10" "   ").1 =
      some (JobValue.dict c10titled) :=
  c10_empty_query c10mgr 0 "sess-10" "   " c10session (JobValue.dict c10titled)
    rfl (by decide) (by decide)

/-! ## C2: create/get round-trip -/

/-- C2: creating a session and reading it back before the timeout
elapses yields a session holding exactly the stored results and the
stored search terms (the empty list when terms were absent). -/
theorem c2_create_get_roundtrip (m : SessionManager) (now : Int) (sid : String)
    (results : List JobValue) (terms : Option (List String)) (zip : String) (radius : Int)
    (t : Int) (h0 : now ≤ t) (h1 : t - now < m.session_timeout) :
    (((m.create_session now sid results terms zip radius).2).get_session t sid).1 =
      some { session_id := sid, search_terms := terms.getD [], zip_code := zip,
             radius := radius, results := results, timestamp := now } := by
  have hlookup : dictLookup (((dictSet m.sessions sid
      { session_id := sid, search_terms := terms.getD [], zip_code := zip,
        radius := radius, results := results, timestamp := now })).filter
      (fun p => !(p.2.is_expired now m.session_timeout))) sid =
      some { session_id := sid, search_terms := terms.getD [], zip_code := zip,
             radius := radius, results := results, timestamp := now } := by
    refine dictLookup_filter _ _ _ _ (dictLookup_dictSet _ _ _) ?_ (dictSet_unique _ _ _)
    simp only [SearchSession.is_expired, Bool.not_eq_true', decide_eq_false_iff_not]
    omega
  unfold SessionManager.create_session SessionManager.cleanup_expired_sessions
  dsimp only
  rw [get_session_of_lookup _ t sid _ hlookup (by
    simp only [SearchSession.is_expired, decide_eq_false_iff_not]
    omega)]

/-- C2 witness: store one job under terms `["fraud"]` at time 100 and
read it back at time 130 (timeout 3600). -/
theorem c2_create_get_roundtrip_witness :
    ((c2mgr.create_session 100 "sess-2" [c1job1] (some ["fraud"]) "40210" 5).2.get_session
        130 "sess-2").1 =
      some { session_id := "sess-2", search_terms := ["fraud"], zip_code := "40210",
             radius := 5, results := [c1job1], timestamp := 100 } :=
  c2_create_get_roundtrip c2mgr 100 "sess-2" [c1job1] (some ["fraud"]) "40210" 5 130
    (by norm_num) (by norm_num [c2mgr])

/-! ## C4: expiry threshold of `get` -/

/-- C4 counterexample: a session created at t0 = 0 with timeout 10 is
still returned by a read at exactly t = t0 + timeout = 10, where the
claim requires absent (the code's expiry test is strict). -/
theorem c4_counterexample :
    (10 : Int) - c4session.timestamp = c4mgr.session_timeout ∧
    (c4mgr.get_session 10 "sess-4").1 = some c4session := by
  exact ⟨rfl, rfl⟩

/-- C4 (amended): `get(id)` returns the session for every read with
`t - t0 ≤ τ` — including the boundary read at exactly `t = t0 + τ` —
and absent exactly for `t - t0 > τ`: expiry is strict. -/
theorem c4_expiry_boundary (m : SessionManager) (now : Int) (sid : String) (s : SearchSession)
    (hlookup : dictLookup m.sessions sid = some s) :
    (now - s.timestamp ≤ m.session_timeout → (m.get_session now sid).1 = some s) ∧
    (now - s.timestamp > m.session_timeout → (m.get_session now sid).1 = none) := by
  constructor <;> intro h
  · rw [get_session_of_lookup m now sid s hlookup (by
      simp only [SearchSession.is_expired, decide_eq_false_iff_not]
      omega)]
  · rw [get_session_of_expired m now sid s hlookup (by
      simp only [SearchSession.is_expired, decide_eq_true_eq]
      omega)]

/-- C4 witness: the boundary read at t = 10 still returns the session;
the read at t = 11 is absent. -/
theorem c4_expiry_boundary_witness :
    (c4mgr.get_session 10 "sess-4").1 = some c4session ∧
    (c4mgr.get_session 11 "sess-4").1 = none :=
  ⟨(c4_expiry_boundary c4mgr 10 "sess-4" c4session rfl).1 (by decide),
   (c4_expiry_boundary c4mgr 11 "sess-4" c4session rfl).2 (by decide)⟩

/-! ## C1: job_index takes precedence over query -/

/-- C1: when `get_job_details` is called with an explicit session id
resolving to a session, and a valid `job_index` (at least 1 and within
the stored results, selecting a truthy entry), the handler proceeds to
the job selected positionally by `job_index` — for every value of the
`query`/`job_query` arguments, which are never consulted. -/
theorem c1_index_precedence (m : SessionManager) (now : Int) (sid : String)
    (session : SearchSession) (ji : Int) (j : JobValue)
    (argQuery argJobQuery : Option String)
    (hsid : sid ≠ "")
    (hres : (m.get_session now sid).1 = some session)
    (hid : session.session_id = sid)
    (h1 : 1 ≤ ji)
    (hj : session.results.get? (ji - 1).toNat = some j)
    (htruthy : j.isTruthy = true) :
    handle_get_job_details m now argQuery argJobQuery (some sid) (some ji) =
      (ToolResult.details j, m) := by
  obtain ⟨hpair, -, -⟩ := get_session_eq_some m now sid session hres
  have hlt : (ji - 1).toNat < session.results.length := by
    cases hlen : decide ((ji - 1).toNat < session.results.length) with
    | true => exact of_decide_eq_true hlen
    | false =>
      rw [List.get?_eq_none.mpr (by
        exact Nat.le_of_not_lt (of_decide_eq_false hlen))] at hj
      exact absurd hj (by simp)
  have hbyidx : m.get_job_by_index now session.session_id ji = (some j, m) := by
    unfold SessionManager.get_job_by_index
    rw [hid, hpair]
    dsimp only
    rw [if_neg (by omega)]
    rw [hj]
  unfold handle_get_job_details
  dsimp only
  rw [if_neg (show ¬ ji < 1 by omega)]
  unfold resolveAndSelect
  rw [if_pos (show truthyStr (some sid) = true by simp [truthyStr, hsid])]
  dsimp only
  rw [hpair]
  dsimp only
  unfold selectJob
  dsimp only
  rw [hbyidx]
  dsimp only
  rw [if_pos htruthy]

/-- C1 witness: the claim's concrete scenario — `job_index = 2`
together with a query matching no stored result returns the job at
index 2. -/
theorem c1_index_precedence_witness :
    handle_get_job_details c1mgr 0 (some "no such job zzz") none (some "sess-1") (some 2) =
      (ToolResult.details c1job2, c1mgr) :=
  c1_index_precedence c1mgr 0 "sess-1" c1session 2 c1job2
    (some "no such job zzz") none (by decide) rfl rfl (by norm_num) (by decide) (by decide)

/-! ## C6: link dedup and company-profile exclusion in extraction -/

theorem processArticlesLoop_link_not_seen (items : List RawItem) (seen : List String)
    (j : JobSummary) (hj : j ∈ processArticlesLoop items seen) : j.link ∉ seen := by
  induction items generalizing seen with
  | nil => simp [processArticlesLoop] at hj
  | cons item rest ih =>
    unfold processArticlesLoop at hj
    by_cases hc : (seen.contains (normalizeLink item.href) = true ∨
        pyContains "/cmp/" (normalizeLink item.href) = true)
    · rw [if_pos hc] at hj
      exact ih seen hj
    · rw [if_neg hc] at hj
      rcases List.mem_cons.mp hj with rfl | hjrest
      · intro hmem
        exact hc (Or.inl (List.elem_eq_true_of_mem hmem))
      · have := ih (normalizeLink item.href :: seen) hjrest
        intro hmem
        exact this (List.mem_cons_of_mem _ hmem)

theorem processArticlesLoop_links_nodup (items : List RawItem) (seen : List String) :
    ((processArticlesLoop items seen).map (fun j => j.link)).Nodup := by
  induction items generalizing seen with
  | nil => simp [processArticlesLoop]
  | cons item rest ih =>
    unfold processArticlesLoop
    by_cases hc : (seen.contains (normalizeLink item.href) = true ∨
        pyContains "/cmp/" (normalizeLink item.href) = true)
    · rw [if_pos hc]
      exact ih seen
    · rw [if_neg hc]
      simp only [List.map_cons, List.nodup_cons]
      refine ⟨?_, ih _⟩
      intro hmem
      obtain ⟨j2, hj2, hlink⟩ := List.mem_map.mp hmem
      have hnot := processArticlesLoop_link_not_seen rest
        (normalizeLink item.href :: seen) j2 hj2
      apply hnot
      rw [hlink]
      exact List.mem_cons_self _ _

theorem processArticlesLoop_no_cmp (items : List RawItem) (seen : List String)
    (j : JobSummary) (hj : j ∈ processArticlesLoop items seen) :
    pyContains "/cmp/" j.link = false := by
  induction items generalizing seen with
  | nil => simp [processArticlesLoop] at hj
  | cons item rest ih =>
    unfold processArticlesLoop at hj
    by_cases hc : (seen.contains (normalizeLink item.href) = true ∨
        pyContains "/cmp/" (normalizeLink item.href) = true)
    · rw [if_pos hc] at hj
      exact ih seen hj
    · rw [if_neg hc] at hj
      rcases List.mem_cons.mp hj with rfl | hjrest
      · show pyContains "/cmp/" (normalizeLink item.href) = false
        cases h : pyContains "/cmp/" (normalizeLink item.href) with
        | false => rfl
        | true => exact absurd (Or.inr h) hc
      · exact ih _ hjrest

theorem processArticlesLoop_first_wins (pre : List RawItem) (item : RawItem)
    (post : List RawItem) (seen : List String)
    (hcmp : pyContains "/cmp/" (normalizeLink item.href) = false)
    (hseen : normalizeLink item.href ∉ seen)
    (hpre : ∀ p ∈ pre, normalizeLink p.href ≠ normalizeLink item.href) :
    mkSummary item ∈ processArticlesLoop (pre ++ item :: post) seen := by
  induction pre generalizing seen with
  | nil =>
    simp only [List.nil_append]
    unfold processArticlesLoop
    rw [if_neg (by
      rintro (hin | hin)
      · exact hseen (List.mem_of_elem_eq_true hin)
      · rw [hcmp] at hin
        exact absurd hin (by simp))]
    exact List.mem_cons_self _ _
  | cons p t ih =>
    simp only [List.cons_append]
    unfold processArticlesLoop
    by_cases hc : (seen.contains (normalizeLink p.href) = true ∨
        pyContains "/cmp/" (normalizeLink p.href) = true)
    · rw [if_pos hc]
      exact ih seen hseen (fun r hr => hpre r (List.mem_cons_of_mem _ hr))
    · rw [if_neg hc]
      refine List.mem_cons_of_mem _ (ih (normalizeLink p.href :: seen) ?_
        (fun r hr => hpre r (List.mem_cons_of_mem _ hr)))
      intro hmem
      rcases List.mem_cons.mp hmem with heq | hmem2
      · exact hpre p (List.mem_cons_self _ _) heq.symm
      · exact hseen hmem2

/-- C6: in one extraction call, the returned summaries have pairwise
distinct links, none of them contains the company-profile fragment
`/cmp/`, and for any article that is the first (in page order) to
normalize to its link — and whose link is not a company-profile link —
the summary built from that very article is in the output: first
occurrence wins and later duplicates are dropped. -/
theorem c6_extraction_dedup (items : List RawItem) :
    ((extractSummaries items).map (fun j => j.link)).Nodup ∧
    (∀ j ∈ extractSummaries items, pyContains "/cmp/" j.link = false) ∧
    (∀ pre item post, items = pre ++ item :: post →
      pyContains "/cmp/" (normalizeLink item.href) = false →
      (∀ p ∈ pre, normalizeLink p.href ≠ normalizeLink item.href) →
      mkSummary item ∈ extractSummaries items) := by
  refine ⟨processArticlesLoop_links_nodup items [], ?_, ?_⟩
  · intro j hj
    exact processArticlesLoop_no_cmp items [] j hj
  · intro pre item post heq hcmp hpre
    subst heq
    exact processArticlesLoop_first_wins pre item post [] hcmp (by simp) hpre

/-- C6 witness: the first article's summary is kept while its later
duplicate and a company-profile article are dropped; output links are
distinct. -/
theorem c6_extraction_dedup_witness :
    mkSummary c6item ∈ extractSummaries c6items ∧
    ((extractSummaries c6items).map (fun j => j.link)).Nodup :=
  have h := c6_extraction_dedup c6items
  ⟨h.2.2 [] c6item [c6cmpItem, c6dupItem] rfl (by decide)
    (fun p hp => absurd hp (List.not_mem_nil p)),
   h.1⟩

/-! ## C7: error classification of the detail-page path -/

/-- C7 counterexample: with a transport failure ("timeout") while
fetching `https://www.stepstone.de/job/1`, `parse_job_details` raises
`PageParseError` — not `NetworkError` as the claim states — and the
payload message does not contain the target URL. -/
theorem c7_counterexample :
    JobDetailParser.parse_job_details "https://www.stepstone.de/job/1"
        (.error "timeout") (fun _ => .ok c7details) =
      .error (.pageParseError
        "Failed to parse job details: Failed to fetch job page: timeout") ∧
    pyContains "https://www.stepstone.de/job/1"
        "Failed to parse job details: Failed to fetch job page: timeout" = false := by
  exact ⟨rfl, by decide⟩

/-- C7 (amended): a transport failure makes `fetch_job_page` raise
`NetworkError` with the original message, but `parse_job_details`
catches every exception of its body — including that `NetworkError` —
and re-raises `PageParseError` whose message carries the original error
message and not the target URL; the only exception type escaping
`parse_job_details` is `PageParseError`. -/
theorem c7_error_classification (url : String) (httpResult : Except String String)
    (build : String → Except PyExc JobDetailsRec) :
    (∀ msg, httpResult = .error msg →
      JobDetailParser.fetch_job_page httpResult =
        .error (.networkError ("Failed to fetch job page: " ++ msg)) ∧
      JobDetailParser.parse_job_details url httpResult build =
        .error (.pageParseError
          ("Failed to parse job details: " ++ ("Failed to fetch job page: " ++ msg)))) ∧
    (∀ html e, httpResult = .ok html → build html = .error e →
      JobDetailParser.parse_job_details url httpResult build =
        .error (.pageParseError ("Failed to parse job details: " ++ e.message))) ∧
    (∀ e, JobDetailParser.parse_job_details url httpResult build = .error e →
      ∃ msg, e = .pageParseError ("Failed to parse job details: " ++ msg)) := by
  refine ⟨?_, ?_, ?_⟩
  · rintro msg rfl
    exact ⟨rfl, rfl⟩
  · rintro html e rfl hb
    simp [JobDetailParser.parse_job_details, JobDetailParser.fetch_job_page, hb]
  · intro e he
    unfold JobDetailParser.parse_job_details JobDetailParser.fetch_job_page at he
    cases httpResult with
    | ok html =>
      dsimp only at he
      cases hb : build html with
      | ok d => rw [hb] at he; exact absurd he (by simp)
      | error e2 =>
        rw [hb] at he
        dsimp only at he
        simp only [Except.error.injEq] at he
        exact ⟨e2.message, he.symm⟩
    | error msg =>
      dsimp only [PyExc.message] at he
      simp only [Except.error.injEq] at he
      exact ⟨("Failed to fetch job page: " ++ msg), he.symm⟩

/-- C7 witness: an exception while building the record is re-raised as
`PageParseError` with the original message. -/
theorem c7_error_classification_witness :
    JobDetailParser.parse_job_details "https://www.stepstone.de/job/2"
        (.ok "<html></html>") (fun _ => .error (.otherExc "boom")) =
      .error (.pageParseError
        ("Failed to parse job details: " ++ (PyExc.otherExc "boom").message)) :=
  (c7_error_classification "https://www.stepstone.de/job/2" (.ok "<html></html>")
      (fun _ => .error (.otherExc "boom"))).2.1 "<html></html>" (.otherExc "boom") rfl rfl

/-! ## C8: eager constructor validation of the Fetch Client -/

/-- C8 counterexample: constructing the scraper with an empty
User-Agent pool does not raise; the falsy empty sequence silently falls
back to `DEFAULT_USER_AGENTS` and construction succeeds. -/
theorem c8_counterexample :
    StepstoneJobScraper.init 0 1 3 2 (some []) 10 =
      .ok { min_delay := 0, max_delay := 1, max_retries := 3, backoff_factor := 2,
            request_timeout := 10, agents := DEFAULT_USER_AGENTS } := by
  rfl

/-- C8 (amended): configuration is validated eagerly at construction
time for the delay window (negative `min_delay`/`max_delay`, or
`max_delay < min_delay`, raise before any request), but an empty or
absent `user_agents` pool does not raise: it silently falls back to the
non-empty built-in `DEFAULT_USER_AGENTS` pool and construction
succeeds; a non-empty supplied pool is kept as given. -/
theorem c8_init_validation (min_delay max_delay : ℚ) (max_retries : Int)
    (backoff_factor : ℚ) (request_timeout : Int) :
    (∀ user_agents, min_delay < 0 ∨ max_delay < 0 →
      StepstoneJobScraper.init min_delay max_delay max_retries backoff_factor
          user_agents request_timeout =
        .error "Delay values must be non-negative") ∧
    (∀ user_agents, 0 ≤ min_delay → 0 ≤ max_delay → max_delay < min_delay →
      StepstoneJobScraper.init min_delay max_delay max_retries backoff_factor
          user_agents request_timeout =
        .error "max_delay must be greater than or equal to min_delay") ∧
    (0 ≤ min_delay → min_delay ≤ max_delay →
      StepstoneJobScraper.init min_delay max_delay max_retries backoff_factor
          (some []) request_timeout =
        .ok ⟨min_delay, max_delay, max_retries, backoff_factor, request_timeout,
             DEFAULT_USER_AGENTS⟩) ∧
    (0 ≤ min_delay → min_delay ≤ max_delay →
      StepstoneJobScraper.init min_delay max_delay max_retries backoff_factor
          none request_timeout =
        .ok ⟨min_delay, max_delay, max_retries, backoff_factor, request_timeout,
             DEFAULT_USER_AGENTS⟩) ∧
    (∀ hd tl, 0 ≤ min_delay → min_delay ≤ max_delay →
      StepstoneJobScraper.init min_delay max_delay max_retries backoff_factor
          (some (hd :: tl)) request_timeout =
        .ok ⟨min_delay, max_delay, max_retries, backoff_factor, request_timeout,
             hd :: tl⟩) := by
  have hmax0 : ∀ a b : ℚ, 0 ≤ a → a ≤ b → ¬(a < 0 ∨ b < 0) := by
    intro a b h1 h2
    rw [not_or, not_lt, not_lt]
    exact ⟨h1, le_trans h1 h2⟩
  refine ⟨?_, ?_, ?_, ?_, ?_⟩
  · intro ua h
    unfold StepstoneJobScraper.init
    rw [if_pos h]
  · intro ua h1 h2 h3
    unfold StepstoneJobScraper.init
    rw [if_neg (by rw [not_or, not_lt, not_lt]; exact ⟨h1, h2⟩), if_pos h3]
  · intro h1 h2
    unfold StepstoneJobScraper.init
    rw [if_neg (hmax0 _ _ h1 h2), if_neg (not_lt.mpr h2)]
    rfl
  · intro h1 h2
    unfold StepstoneJobScraper.init
    rw [if_neg (hmax0 _ _ h1 h2), if_neg (not_lt.mpr h2)]
    rfl
  · intro hd tl h1 h2
    unfold StepstoneJobScraper.init
    rw [if_neg (hmax0 _ _ h1 h2), if_neg (not_lt.mpr h2)]
    rfl

/-- C8 witness: an absent pool with a valid delay window constructs
successfully with the default agents. -/
theorem c8_init_validation_witness :
    StepstoneJobScraper.init 0 1 3 2 none 10 =
      .ok ⟨0, 1, 3, 2, 10, DEFAULT_USER_AGENTS⟩ :=
  (c8_init_validation 0 1 3 2 10).2.2.2.1 (by norm_num) (by norm_num)

/-! ## C9: the pre-request throttle -/

/-- C9 counterexample: with the zero-width window
`min_delay = max_delay = 1`, the drawn duration is 1 and a sleep is
performed, contradicting the claim that a zero-width window performs no
sleep (the code's short-circuit tests `max_delay == 0`, not zero
width). -/
theorem c9_counterexample :
    c9cfg.min_delay = c9cfg.max_delay ∧
    (StepstoneJobScraper.apply_throttle c9cfg 1).2 = true := by
  constructor
  · rfl
  · rfl

/-- C9 (amended): the throttle draws a duration `u` from the
`[min_delay, max_delay]` window and sleeps it whenever it is positive;
the no-sleep short-circuit triggers exactly when `max_delay = 0` (which
under the constructor's constraints forces `min_delay = 0` too), not
for every zero-width window. -/
theorem c9_throttle_behavior (cfg : ScraperConfig) (u : ℚ)
    (hmin : cfg.min_delay ≤ u) (hmax : u ≤ cfg.max_delay) :
    (cfg.max_delay = 0 → StepstoneJobScraper.apply_throttle cfg u = (0, false)) ∧
    (cfg.max_delay ≠ 0 →
      StepstoneJobScraper.apply_throttle cfg u = (u, decide (u > 0))) := by
  constructor
  · intro h
    unfold StepstoneJobScraper.apply_throttle
    rw [if_pos h]
  · intro h
    unfold StepstoneJobScraper.apply_throttle
    rw [if_neg h]

/-- C9 witness: the zero-width window at 1 draws 1 and sleeps. -/
theorem c9_throttle_behavior_witness :
    StepstoneJobScraper.apply_throttle c9cfg 1 = (1, decide ((1:ℚ) > 0)) :=
  (c9_throttle_behavior c9cfg 1 (by norm_num [c9cfg]) (by norm_num [c9cfg])).2
    (by norm_num [c9cfg])

end Stepstone
